import Mathlib

/-!
Shallow embedding of the `sudman` systemd user-unit manager
(`src/sudman/utils.py`, `src/sudman/manager.py`, `src/sudman/interactive.py`)
and proofs about it.

External process execution is modelled by an oracle
`popen : List String → Except String (Int × String × String)`:
`Except.ok (rc, stdout, stderr)` is a completed process,
`Except.error e` is an internal failure (the exception branch of
`run_command`).  Every embedded function is parameterised by this oracle.
-/

/-- The type of the process-spawning oracle: given an argv, either a
completed process result `(returncode, stdout, stderr)` or an exception
message. -/
abbrev Popen := List String → Except String (Int × String × String)

/-- `utils.run_command`: run a command, returning
`(return_code, stdout, stderr)`; any exception `e` is mapped to
`(1, "", str(e))`. -/
def run_command (popen : Popen) (cmd : List String) : Int × String × String :=
  match popen cmd with
  | Except.ok r => r
  | Except.error e => (1, "", e)

/-- Python's substring test `pat in hay`. -/
def strContains (hay pat : String) : Bool :=
  decide (pat.toList <:+: hay.toList)

/-- Python's `s.strip()`: drop leading and trailing whitespace. -/
def pyStrip (s : String) : String :=
  String.mk
    (((s.toList.dropWhile Char.isWhitespace).reverse.dropWhile
        Char.isWhitespace).reverse)

/-- The argv used by `check_unit_exists`. -/
def list_unit_files_cmd (unit_name : String) : List String :=
  ["systemctl", "--user", "list-unit-files", unit_name]

/-- `utils.check_unit_exists`: run `systemctl --user list-unit-files <name>`;
false on non-zero exit, else true unless stdout contains
`"0 unit files listed."`. -/
def check_unit_exists (popen : Popen) (unit_name : String) : Bool :=
  let r := run_command popen (list_unit_files_cmd unit_name)
  if r.1 ≠ 0 then false
  else ! strContains r.2.1 "0 unit files listed."

/-- The argv `systemctl --user <verb> <name>` used by `is_enabled` and the
mutating operations. -/
def ctl_cmd (verb unit_name : String) : List String :=
  ["systemctl", "--user", verb, unit_name]

/-- `SystemdUnitManager.is_enabled`: true iff the `is-enabled` query exits 0
and its stripped stdout equals `"enabled"`. -/
def is_enabled (popen : Popen) (unit_name : String) : Bool :=
  let r := run_command popen (ctl_cmd "is-enabled" unit_name)
  r.1 == 0 && (pyStrip r.2.1) == "enabled"

/-- `SystemdUnitManager.start_unit`. -/
def start_unit (popen : Popen) (unit_name : String) : Bool × String :=
  if ! check_unit_exists popen unit_name then
    (false, s!"Unit {unit_name} does not exist")
  else
    let r := run_command popen (ctl_cmd "start" unit_name)
    if r.1 = 0 then (true, s!"Started {unit_name} successfully")
    else (false, s!"Failed to start {unit_name}: {r.2.2}")

/-- `SystemdUnitManager.stop_unit`. -/
def stop_unit (popen : Popen) (unit_name : String) : Bool × String :=
  if ! check_unit_exists popen unit_name then
    (false, s!"Unit {unit_name} does not exist")
  else
    let r := run_command popen (ctl_cmd "stop" unit_name)
    if r.1 = 0 then (true, s!"Stopped {unit_name} successfully")
    else (false, s!"Failed to stop {unit_name}: {r.2.2}")

/-- `SystemdUnitManager.restart_unit`. -/
def restart_unit (popen : Popen) (unit_name : String) : Bool × String :=
  if ! check_unit_exists popen unit_name then
    (false, s!"Unit {unit_name} does not exist")
  else
    let r := run_command popen (ctl_cmd "restart" unit_name)
    if r.1 = 0 then (true, s!"Restarted {unit_name} successfully")
    else (false, s!"Failed to restart {unit_name}: {r.2.2}")

/-- `SystemdUnitManager.enable_unit`. -/
def enable_unit (popen : Popen) (unit_name : String) : Bool × String :=
  if ! check_unit_exists popen unit_name then
    (false, s!"Unit {unit_name} does not exist")
  else
    let r := run_command popen (ctl_cmd "enable" unit_name)
    if r.1 = 0 then (true, s!"Enabled {unit_name} successfully")
    else (false, s!"Failed to enable {unit_name}: {r.2.2}")

/-- `SystemdUnitManager.disable_unit`. -/
def disable_unit (popen : Popen) (unit_name : String) : Bool × String :=
  if ! check_unit_exists popen unit_name then
    (false, s!"Unit {unit_name} does not exist")
  else
    let r := run_command popen (ctl_cmd "disable" unit_name)
    if r.1 = 0 then (true, s!"Disabled {unit_name} successfully")
    else (false, s!"Failed to disable {unit_name}: {r.2.2}")

/-- `SystemdUnitManager.mask_unit`. -/
def mask_unit (popen : Popen) (unit_name : String) : Bool × String :=
  if ! check_unit_exists popen unit_name then
    (false, s!"Unit {unit_name} does not exist")
  else
    let r := run_command popen (ctl_cmd "mask" unit_name)
    if r.1 = 0 then (true, s!"Masked {unit_name} successfully")
    else (false, s!"Failed to mask {unit_name}: {r.2.2}")

/-- `SystemdUnitManager.unmask_unit`. -/
def unmask_unit (popen : Popen) (unit_name : String) : Bool × String :=
  if ! check_unit_exists popen unit_name then
    (false, s!"Unit {unit_name} does not exist")
  else
    let r := run_command popen (ctl_cmd "unmask" unit_name)
    if r.1 = 0 then (true, s!"Unmasked {unit_name} successfully")
    else (false, s!"Failed to unmask {unit_name}: {r.2.2}")

/-- The sequence of external argvs a mutating operation with verb `verb`
invokes, read off the shared control flow of the seven operations: the
existence check always runs; the mutating command runs only when the
existence check succeeds. -/
def mutating_op_calls (popen : Popen) (verb unit_name : String) :
    List (List String) :=
  if check_unit_exists popen unit_name then
    [list_unit_files_cmd unit_name, ctl_cmd verb unit_name]
  else
    [list_unit_files_cmd unit_name]

/-- The shared contract of the seven mutating operations (claim C1's shape):
existence gate, then success/failure message from the exit code, and the
mutating argv is only invoked when the gate passes. -/
def opContract (op : Popen → String → Bool × String) (verb : String)
    (okMsg : String → String) (failMsg : String → String → String) : Prop :=
  ∀ (popen : Popen) (name : String) (rc : Int) (out err : String),
    run_command popen (ctl_cmd verb name) = (rc, out, err) →
    ((check_unit_exists popen name = false →
        op popen name = (false, s!"Unit {name} does not exist") ∧
        ctl_cmd verb name ∉ mutating_op_calls popen verb name) ∧
     (check_unit_exists popen name = true →
        (rc = 0 → op popen name = (true, okMsg name)) ∧
        (rc ≠ 0 → op popen name = (false, failMsg name err))))

/-- A concrete oracle for exercising the C1 contract: unit `x` exists,
unit `y` does not, `mask x` fails with stderr `boom`, everything else
succeeds. -/
def popenC1 : Popen := fun cmd =>
  if cmd = list_unit_files_cmd "y" then Except.ok (0, "0 unit files listed.", "")
  else if cmd = ctl_cmd "mask" "x" then Except.ok (2, "", "boom")
  else Except.ok (0, "", "")

/-- `manager.UnitStatus`: the dataclass for one unit. -/
structure UnitStatus where
  name : String
  load_state : String
  active_state : String
  sub_state : String
  description : String
  enabled : Bool
deriving DecidableEq, Repr

/-- Python's `s.split("\n")` over the character list: split at every
newline, keeping empty pieces. -/
def splitNlAux : List Char → List Char → List (List Char)
  | [], acc => [acc.reverse]
  | c :: cs, acc =>
      if c = '\n' then acc.reverse :: splitNlAux cs []
      else splitNlAux cs (c :: acc)

/-- Python's `s.split("\n")`. -/
def pySplitNl (s : String) : List String :=
  (splitNlAux s.toList []).map String.mk

/-- Python's `s.split(maxsplit=n)` over the character list: strip leading
whitespace, then peel off up to `n` whitespace-delimited words; the final
piece is the remainder verbatim (trailing whitespace kept). -/
def pySplitAux : Nat → List Char → List (List Char)
  | 0, cs =>
      let cs2 := cs.dropWhile Char.isWhitespace
      if cs2.isEmpty then [] else [cs2]
  | n + 1, cs =>
      let cs2 := cs.dropWhile Char.isWhitespace
      if cs2.isEmpty then []
      else (cs2.takeWhile (fun c => ! c.isWhitespace)) ::
            pySplitAux n (cs2.dropWhile (fun c => ! c.isWhitespace))

/-- Python's `s.split(maxsplit=n)`. -/
def pySplit (s : String) (maxsplit : Nat) : List String :=
  (pySplitAux maxsplit s.toList).map String.mk

/-- The header-row test of `list_units`: the line contains the markers
`UNIT`, `LOAD` and `ACTIVE`. -/
def isHeaderLine (line : String) : Bool :=
  strContains line "UNIT" && strContains line "LOAD" && strContains line "ACTIVE"

/-- The header/blank-line scan of `list_units` (`manager.py` lines 49-56):
walks the lines with the running index `i` and current `data_start`;
`data_start` becomes `i+1` at the first header line, and the scan stops at
the first blank line seen once `data_start` is set, yielding
`(data_start, data_end)`. -/
def findDataBounds : List String → Nat → Option Nat → Option Nat × Option Nat
  | [], _, ds => (ds, none)
  | line :: rest, i, ds =>
      let ds2 := if ds.isNone && isHeaderLine line then some (i + 1) else ds
      if ds2.isSome && (pyStrip line == "") then (ds2, some i)
      else findDataBounds rest (i + 1) ds2

/-- The per-row parse of `list_units` (`manager.py` lines 62-80): skip
blank rows, split into at most five fields, skip rows with fewer than
five, and build a `UnitStatus` enriched with the enabled state. -/
def parse_row (enabledOf : String → Bool) (line : String) : Option UnitStatus :=
  if pyStrip line == "" then none
  else
    match pySplit line 4 with
    | [n, l, a, su, d] => some ⟨n, l, a, su, d, enabledOf n⟩
    | _ => none

/-- The output-parsing phase of `list_units`: strip the captured stdout,
split it into lines, locate the data bounds, and parse the rows between
them (empty when either bound is missing). -/
def parse_list_output (enabledOf : String → Bool) (stdout : String) :
    List UnitStatus :=
  let lines := pySplitNl (pyStrip stdout)
  match findDataBounds lines 0 none with
  | (some ds, some de) => ((lines.drop ds).take (de - ds)).filterMap (parse_row enabledOf)
  | _ => []

/-- The argv built by `list_units`: `systemctl --user list-units --all`,
plus `*.{type}` when a (truthy) type filter is given. -/
def list_units_cmd (unit_type : Option String) : List String :=
  ["systemctl", "--user", "list-units", "--all"] ++
    (match unit_type with
     | some t => if t = "" then [] else [s!"*.{t}"]
     | none => [])

/-- `SystemdUnitManager.list_units`: run the list command, return `[]` on
non-zero exit, otherwise parse the tabular stdout, querying `is_enabled`
for each parsed row's name. -/
def list_units (popen : Popen) (unit_type : Option String) : List UnitStatus :=
  let r := run_command popen (list_units_cmd unit_type)
  if r.1 ≠ 0 then []
  else parse_list_output (fun n => is_enabled popen n) r.2.1

/-- A concrete oracle for exercising C2: the list command answers with the
two-row table below (the second row is malformed: only four fields), and
every is-enabled query answers `enabled`. -/
def popenC2 : Popen := fun cmd =>
  if cmd = list_units_cmd none then
    Except.ok (0,
      "UNIT LOAD ACTIVE SUB DESCRIPTION\nfoo.service loaded active running Foo Service\nbad.service loaded active\n\n2 loaded units listed.",
      "")
  else Except.ok (0, "enabled\n", "")

/-- The mutable state of `SudmanTUI` (`interactive.py` lines 15-21):
`units`, `selected_idx`, `filter_type`, `offset` (scroll offset) and
`max_lines` (visible rows, `height - 4`). -/
structure TuiState where
  units : List UnitStatus
  selected_idx : Int
  filter_type : Option String
  offset : Int
  max_lines : Int
deriving DecidableEq, Repr

/-- The key events of the List-state dispatch that touch the navigation
state: Up, Down, the refresh key `r`, anything else. -/
inductive Key
  | up
  | down
  | refresh
  | other
deriving DecidableEq, Repr

/-- One iteration of the List-state key dispatch of `SudmanTUI.run`
(`interactive.py` lines 156-172), restricted to the branches that change
`TuiState`: Up and Down move the selection with one-row scrolling, `r`
reloads `units` with the current filter, and other keys leave the
navigation state alone. -/
def listStep (popen : Popen) (k : Key) (s : TuiState) : TuiState :=
  match k with
  | Key.up =>
      if s.selected_idx > 0 then
        let sel := s.selected_idx - 1
        { s with selected_idx := sel,
                 offset := if sel < s.offset then max 0 (s.offset - 1)
                           else s.offset }
      else s
  | Key.down =>
      if s.selected_idx < (s.units.length : Int) - 1 then
        let sel := s.selected_idx + 1
        { s with selected_idx := sel,
                 offset := if sel ≥ s.offset + s.max_lines then s.offset + 1
                           else s.offset }
      else s
  | Key.refresh => { s with units := list_units popen s.filter_type }
  | Key.other => s

/-- A sequence of List-state key events, processed left to right. -/
def navRun (popen : Popen) (keys : List Key) (s : TuiState) : TuiState :=
  keys.foldl (fun st k => listStep popen k st) s

/-- `SudmanTUI.handle_filter_input` (`interactive.py` lines 235-258) with
the captured input text `raw`: strip it, store it as the filter (cleared
when empty), reset selection and scroll to 0, and reload `units`. -/
def handle_filter_input (popen : Popen) (raw : String) (s : TuiState) :
    TuiState :=
  let input_str := pyStrip raw
  let ft := if input_str ≠ "" then some input_str else none
  { s with filter_type := ft, selected_idx := 0, offset := 0,
           units := list_units popen ft }

/-- The navigation invariant of the dashboard state:
`0 ≤ offset ≤ selected_idx ≤ offset + max_lines - 1` and the selection in
range of `units`. -/
def NavInv (s : TuiState) : Prop :=
  0 ≤ s.offset ∧ s.offset ≤ s.selected_idx ∧
    s.selected_idx ≤ s.offset + s.max_lines - 1 ∧
    s.selected_idx ≤ (s.units.length : Int) - 1

instance (s : TuiState) : Decidable (NavInv s) := by
  unfold NavInv
  exact inferInstance

/-- The line-wrapping loop of `SudmanTUI.show_message`
(`interactive.py` lines 221-225) on one line: while the line is longer
than the screen width, emit the first `width` characters and continue with
the rest; finally emit the remainder.  (For `width = 0` the source loop
would not terminate; the `0 < width` guard makes the function total while
agreeing with the source for every positive width.) -/
def wrapLine (width : Nat) (line : List Char) : List (List Char) :=
  if _h : 0 < width ∧ width < line.length then
    line.take width :: wrapLine width (line.drop width)
  else [line]
termination_by line.length
decreasing_by
  simp only [List.length_drop]
  omega

/-- The wrapped body of `show_message`: split the message at newlines and
wrap each line to the screen width, concatenating in order. -/
def show_message_lines (width : Nat) (message : String) : List String :=
  (pySplitNl message).flatMap
    (fun line => (wrapLine width line.toList).map String.mk)

/-- C1: each of the seven mutating operations (start, stop, restart, enable,
disable, mask, unmask) first checks `check_unit_exists`; on failure it
returns `(false, "Unit {name} does not exist")` without invoking the
mutating argv; on success it returns `(true, "<Verb>ed {name} successfully")`
when the external command exits zero and
`(false, "Failed to <verb> {name}: {stderr}")` otherwise. -/
theorem C1_mutating_ops :
    opContract start_unit "start" (fun n => s!"Started {n} successfully")
      (fun n e => s!"Failed to start {n}: {e}") ∧
    opContract stop_unit "stop" (fun n => s!"Stopped {n} successfully")
      (fun n e => s!"Failed to stop {n}: {e}") ∧
    opContract restart_unit "restart" (fun n => s!"Restarted {n} successfully")
      (fun n e => s!"Failed to restart {n}: {e}") ∧
    opContract enable_unit "enable" (fun n => s!"Enabled {n} successfully")
      (fun n e => s!"Failed to enable {n}: {e}") ∧
    opContract disable_unit "disable" (fun n => s!"Disabled {n} successfully")
      (fun n e => s!"Failed to disable {n}: {e}") ∧
    opContract mask_unit "mask" (fun n => s!"Masked {n} successfully")
      (fun n e => s!"Failed to mask {n}: {e}") ∧
    opContract unmask_unit "unmask" (fun n => s!"Unmasked {n} successfully")
      (fun n e => s!"Failed to unmask {n}: {e}") := by
  refine ⟨?_, ?_, ?_, ?_, ?_, ?_, ?_⟩ <;>
  · intro popen name rc out err hrun
    constructor
    · intro h
      refine ⟨by simp [start_unit, stop_unit, restart_unit, enable_unit,
        disable_unit, mask_unit, unmask_unit, h], ?_⟩
      simp [mutating_op_calls, h, ctl_cmd, list_unit_files_cmd]
    · intro h
      constructor
      · intro h0
        simp [start_unit, stop_unit, restart_unit, enable_unit,
          disable_unit, mask_unit, unmask_unit, h, hrun, h0]
      · intro hne
        simp [start_unit, stop_unit, restart_unit, enable_unit,
          disable_unit, mask_unit, unmask_unit, h, hrun, hne]

/-- Witness for C1 at concrete inputs: a successful start, a failed mask,
and a gated stop on a missing unit that never reaches the mutating argv. -/
theorem C1_mutating_ops_witness :
    start_unit popenC1 "x" = (true, "Started x successfully") ∧
    mask_unit popenC1 "x" = (false, "Failed to mask x: boom") ∧
    stop_unit popenC1 "y" = (false, "Unit y does not exist") ∧
    ctl_cmd "stop" "y" ∉ mutating_op_calls popenC1 "stop" "y" := by
  have h := C1_mutating_ops
  refine ⟨?_, ?_, ?_, ?_⟩
  · exact ((h.1 popenC1 "x" 0 "" "" (by decide)).2 (by decide)).1 rfl
  · exact ((h.2.2.2.2.2.1 popenC1 "x" 2 "" "boom" (by decide)).2 (by decide)).2 (by decide)
  · exact ((h.2.1 popenC1 "y" 0 "" "" (by decide)).1 (by decide)).1
  · exact ((h.2.1 popenC1 "y" 0 "" "" (by decide)).1 (by decide)).2

/-- C3 counterexample: with exit code 0 and stdout exactly `"no files found"`
(which contains the claimed sentinel phrase), `check_unit_exists` returns
`true`, not `false`: the code's sentinel is `"0 unit files listed."`, not
`"no files found"`. -/
theorem C3_counterexample :
    strContains "no files found" "no files found" = true ∧
    check_unit_exists (fun _ => Except.ok (0, "no files found", "")) "x" = true := by
  decide

/-- C3 (amended): `check_unit_exists` returns false whenever the
list-unit-files command exits non-zero, regardless of stdout; on zero exit
it returns true exactly when stdout does not contain the literal sentinel
`"0 unit files listed."`. -/
theorem C3_check_unit_exists_spec (popen : Popen) (name : String)
    (rc : Int) (out err : String)
    (h : run_command popen (list_unit_files_cmd name) = (rc, out, err)) :
    (rc ≠ 0 → check_unit_exists popen name = false) ∧
    (rc = 0 → check_unit_exists popen name
        = ! strContains out "0 unit files listed.") := by
  constructor <;> intro h1 <;> simp [check_unit_exists, h, h1]

/-- Witness for C3 at concrete inputs: the sentinel forces false on zero
exit, and a non-zero exit forces false whatever stdout holds. -/
theorem C3_check_unit_exists_spec_witness :
    check_unit_exists (fun _ => Except.ok (0, "0 unit files listed.", "")) "x" = false ∧
    check_unit_exists (fun _ => Except.ok (1, "x.service enabled", "")) "x" = false := by
  constructor
  · have h := (C3_check_unit_exists_spec
      (fun _ => Except.ok (0, "0 unit files listed.", "")) "x" 0
      "0 unit files listed." "" rfl).2 rfl
    rw [h]; decide
  · exact (C3_check_unit_exists_spec
      (fun _ => Except.ok (1, "x.service enabled", "")) "x" 1
      "x.service enabled" "" rfl).1 (by decide)

/-- C5: `is_enabled` is true iff the is-enabled query exits 0 and its
trimmed stdout is exactly `"enabled"`; in particular trimmed output
`"disabled"` is false for any exit code, and output `"enabled"` with a
non-zero exit code is false. -/
theorem C5_is_enabled_exact (popen : Popen) (name : String)
    (rc : Int) (out err : String)
    (h : run_command popen (ctl_cmd "is-enabled" name) = (rc, out, err)) :
    (is_enabled popen name = true ↔ rc = 0 ∧ pyStrip out = "enabled") ∧
    (pyStrip out = "disabled" → is_enabled popen name = false) ∧
    (rc ≠ 0 → is_enabled popen name = false) := by
  refine ⟨by simp [is_enabled, h], ?_, ?_⟩
  · intro hd
    simp [is_enabled, h, hd]
  · intro hrc
    simp [is_enabled, h, hrc]

/-- Witness for C5 at concrete inputs: `"enabled\n"` with exit 0 is true;
`"disabled\n"` with exit 1 and `"enabled"` with exit 1 are false. -/
theorem C5_is_enabled_exact_witness :
    is_enabled (fun _ => Except.ok (0, "enabled\n", "")) "foo" = true ∧
    is_enabled (fun _ => Except.ok (1, "disabled\n", "")) "foo" = false ∧
    is_enabled (fun _ => Except.ok (1, "enabled", "")) "foo" = false := by
  refine ⟨?_, ?_, ?_⟩
  · exact (C5_is_enabled_exact (fun _ => Except.ok (0, "enabled\n", "")) "foo"
      0 "enabled\n" "" rfl).1.mpr ⟨rfl, by decide⟩
  · exact (C5_is_enabled_exact (fun _ => Except.ok (1, "disabled\n", "")) "foo"
      1 "disabled\n" "" rfl).2.1 (by decide)
  · exact (C5_is_enabled_exact (fun _ => Except.ok (1, "enabled", "")) "foo"
      1 "enabled" "" rfl).2.2 (by decide)

/-- C8: `run_command` is a total function of the oracle's answer (nothing
escapes the boundary in this embedding), and when the spawn fails with
exception text `e` the result is the synthetic triple: non-zero exit code,
empty stdout, and `e` in the stderr slot. -/
theorem C8_run_command_maps_failures (popen : Popen) (cmd : List String)
    (e : String) (h : popen cmd = Except.error e) :
    (run_command popen cmd).1 ≠ 0 ∧
    (run_command popen cmd).2.1 = "" ∧
    (run_command popen cmd).2.2 = e := by
  simp [run_command, h]

/-- Witness for C8 at a concrete failing spawn. -/
theorem C8_run_command_maps_failures_witness :
    (run_command (fun _ => Except.error "No such file or directory") ["systemctl"]).1 ≠ 0 ∧
    (run_command (fun _ => Except.error "No such file or directory") ["systemctl"]).2.1 = "" ∧
    (run_command (fun _ => Except.error "No such file or directory") ["systemctl"]).2.2
      = "No such file or directory" :=
  C8_run_command_maps_failures _ ["systemctl"] "No such file or directory" rfl

/-- A string containing a non-whitespace character does not strip to
empty. -/
theorem pyStrip_ne_empty (s : String) (c : Char) (hc : c ∈ s.toList)
    (hw : c.isWhitespace = false) : pyStrip s ≠ "" := by
  intro h
  have hdata : (((s.toList.dropWhile Char.isWhitespace).reverse.dropWhile
      Char.isWhitespace).reverse) = [] := congrArg String.data h
  rw [List.reverse_eq_nil_iff, List.dropWhile_eq_nil_iff] at hdata
  have hall : ∀ x ∈ s.toList.dropWhile Char.isWhitespace, x.isWhitespace := by
    intro x hx
    exact hdata x (List.mem_reverse.mpr hx)
  have hcw : c.isWhitespace := by
    have hsplit := List.takeWhile_append_dropWhile Char.isWhitespace s.toList
    rw [← hsplit] at hc
    rcases List.mem_append.mp hc with h1 | h1
    · exact List.mem_takeWhile_imp h1
    · exact hall c h1
  simp [hw] at hcw

/-- Characters of a contained substring are characters of the container. -/
theorem strContains_mem (hay pat : String) (h : strContains hay pat = true)
    (c : Char) (hc : c ∈ pat.toList) : c ∈ hay.toList :=
  (of_decide_eq_true h).subset hc

/-- Once `data_start` is set, the scan runs to the first blank line,
skipping the non-blank rows before it. -/
theorem findDataBounds_rows (rows post : List String) (i v : Nat)
    (hrows : ∀ r ∈ rows, pyStrip r ≠ "") :
    findDataBounds (rows ++ [""] ++ post) i (some v)
      = (some v, some (i + rows.length)) := by
  induction rows generalizing i with
  | nil => simp [findDataBounds, show pyStrip "" = "" from rfl]
  | cons r rest ih =>
      have hr : (pyStrip r == "") = false := by
        simpa using hrows r (by simp)
      have ihr := ih (i + 1) (fun x hx => hrows x (by simp [hx]))
      have hstep : findDataBounds ((r :: rest) ++ [""] ++ post) i (some v)
          = findDataBounds (rest ++ [""] ++ post) (i + 1) (some v) := by
        simp [findDataBounds, hr]
      rw [hstep, ihr]
      simp only [Prod.mk.injEq, Option.some.injEq, List.length_cons]
      exact ⟨trivial, by omega⟩

/-- A header line is non-blank (it contains the letter `U` of `UNIT`). -/
theorem isHeaderLine_nonblank (line : String)
    (h : isHeaderLine line = true) : pyStrip line ≠ "" := by
  have h1 : strContains line "UNIT" = true := by
    simp only [isHeaderLine, Bool.and_eq_true] at h
    exact h.1.1
  exact pyStrip_ne_empty line 'U'
    (strContains_mem _ _ h1 'U' (by decide)) (by decide)

/-- The scan of a well-shaped listing (header, non-blank rows, blank
separator, footer) finds `data_start = 1` and `data_end = 1 + rows.length`. -/
theorem findDataBounds_shape (header : String) (rows post : List String)
    (hheader : isHeaderLine header = true)
    (hrows : ∀ r ∈ rows, pyStrip r ≠ "") :
    findDataBounds (header :: (rows ++ [""] ++ post)) 0 none
      = (some 1, some (1 + rows.length)) := by
  have hnb : (pyStrip header == "") = false := by
    simpa using isHeaderLine_nonblank header hheader
  have hrest := findDataBounds_rows rows post 1 1 hrows
  have hstep : findDataBounds (header :: (rows ++ [""] ++ post)) 0 none
      = findDataBounds (rows ++ [""] ++ post) 1 (some 1) := by
    simp [findDataBounds, hheader, hnb]
  rw [hstep, hrest]

/-- When no line is a header line, the scan never sets `data_start`. -/
theorem findDataBounds_fst_none (lines : List String) (i : Nat)
    (h : ∀ line ∈ lines, isHeaderLine line = false) :
    (findDataBounds lines i none).1 = none := by
  induction lines generalizing i with
  | nil => simp [findDataBounds]
  | cons line rest ih =>
      have h1 : isHeaderLine line = false := h line (by simp)
      have ihr := ih (i + 1) (fun x hx => h x (by simp [hx]))
      simp [findDataBounds, h1, ihr]

/-- `parse_list_output` returns `[]` when no header line is present. -/
theorem parse_list_output_no_header (enabledOf : String → Bool)
    (stdout : String)
    (h : ∀ line ∈ pySplitNl (pyStrip stdout), isHeaderLine line = false) :
    parse_list_output enabledOf stdout = [] := by
  have hfst := findDataBounds_fst_none (pySplitNl (pyStrip stdout)) 0 h
  rcases hfd : findDataBounds (pySplitNl (pyStrip stdout)) 0 none with ⟨fst, snd⟩
  rw [hfd] at hfst
  simp only at hfst
  subst hfst
  simp [parse_list_output, hfd]

/-- On a well-shaped listing, the parsing phase is exactly a `filterMap`
of the per-row parser over the data rows, in input order. -/
theorem parse_list_output_shape (enabledOf : String → Bool)
    (stdout header : String) (rows post : List String)
    (hsplit : pySplitNl (pyStrip stdout) = header :: (rows ++ [""] ++ post))
    (hheader : isHeaderLine header = true)
    (hrows : ∀ r ∈ rows, pyStrip r ≠ "") :
    parse_list_output enabledOf stdout = rows.filterMap (parse_row enabledOf) := by
  simp only [parse_list_output, hsplit,
    findDataBounds_shape header rows post hheader hrows]
  simp only [List.drop_succ_cons, List.drop_zero]
  have hn : 1 + rows.length - 1 = rows.length := by omega
  rw [hn, List.append_assoc, List.take_left]

/-- `pySplitAux n` yields at most `n + 1` pieces. -/
theorem pySplitAux_length_le (n : Nat) (cs : List Char) :
    (pySplitAux n cs).length ≤ n + 1 := by
  induction n generalizing cs with
  | zero =>
      simp only [pySplitAux]
      split <;> simp
  | succ n ih =>
      simp only [pySplitAux]
      split
      · simp
      · simpa using Nat.succ_le_succ (ih _)

/-- A non-blank row is dropped by the per-row parser exactly when it has
fewer than five whitespace-separated fields. -/
theorem parse_row_eq_none_iff (enabledOf : String → Bool) (line : String)
    (hnb : pyStrip line ≠ "") :
    (parse_row enabledOf line = none ↔ (pySplit line 4).length < 5) := by
  have hb : (pyStrip line == "") = false := by simpa using hnb
  have hlen : (pySplit line 4).length ≤ 5 := by
    simpa [pySplit] using pySplitAux_length_le 4 line.toList
  simp only [parse_row, hb, Bool.false_eq_true, if_false]
  rcases hp : pySplit line 4 with
    _ | ⟨a, _ | ⟨b, _ | ⟨c, _ | ⟨d, _ | ⟨e, _ | ⟨f, rest⟩⟩⟩⟩⟩⟩ <;>
    rw [hp] at hlen <;> simp_all

/-- C2: for any captured listing whose stripped stdout splits into a header
line (containing the `UNIT`, `LOAD`, `ACTIVE` markers), non-blank data
rows, a blank separator and a footer, `list_units` returns exactly the
`filterMap` of the per-row parser over the data rows, in input order, and a
non-blank row is dropped exactly when it has fewer than five
whitespace-separated fields; `list_units` returns `[]` when no header line
is present or when the command exits non-zero. -/
theorem C2_list_units (popen : Popen) (ut : Option String) (rc : Int)
    (stdout err : String)
    (hrun : run_command popen (list_units_cmd ut) = (rc, stdout, err)) :
    (rc ≠ 0 → list_units popen ut = []) ∧
    (rc = 0 →
      (∀ (header : String) (rows post : List String),
        pySplitNl (pyStrip stdout) = header :: (rows ++ [""] ++ post) →
        isHeaderLine header = true →
        (∀ r ∈ rows, pyStrip r ≠ "") →
        list_units popen ut
          = rows.filterMap (parse_row (fun n => is_enabled popen n)) ∧
        (∀ r ∈ rows,
          (parse_row (fun n => is_enabled popen n) r = none
            ↔ (pySplit r 4).length < 5))) ∧
      ((∀ line ∈ pySplitNl (pyStrip stdout), isHeaderLine line = false) →
        list_units popen ut = [])) := by
  refine ⟨fun hne => ?_, fun h0 => ⟨?_, ?_⟩⟩
  · simp [list_units, hrun, hne]
  · intro header rows post hsplit hheader hrows
    have hlu : list_units popen ut
        = parse_list_output (fun n => is_enabled popen n) stdout := by
      simp [list_units, hrun, h0]
    refine ⟨?_, ?_⟩
    · rw [hlu]
      exact parse_list_output_shape _ stdout header rows post hsplit hheader hrows
    · intro r hr
      exact parse_row_eq_none_iff _ r (hrows r hr)
  · intro hnohdr
    have hlu : list_units popen ut
        = parse_list_output (fun n => is_enabled popen n) stdout := by
      simp [list_units, hrun, h0]
    rw [hlu]
    exact parse_list_output_no_header _ stdout hnohdr

/-- Witness for C2 at a concrete listing: the well-formed row yields its
Unit, the four-field row is dropped without disturbing the result. -/
theorem C2_list_units_witness :
    list_units popenC2 none
      = [⟨"foo.service", "loaded", "active", "running", "Foo Service", true⟩] := by
  have h := (C2_list_units popenC2 none 0
      "UNIT LOAD ACTIVE SUB DESCRIPTION\nfoo.service loaded active running Foo Service\nbad.service loaded active\n\n2 loaded units listed."
      "" (by decide)).2 rfl
  have h2 := (h.1 "UNIT LOAD ACTIVE SUB DESCRIPTION"
      ["foo.service loaded active running Foo Service", "bad.service loaded active"]
      ["2 loaded units listed."]
      (by decide) (by decide) (by decide)).1
  rw [h2]
  decide

/-- One Up or Down event preserves the navigation invariant, leaves
`units` alone, and moves the scroll offset by at most one row. -/
theorem listStep_nav_preserves (popen : Popen) (k : Key) (s : TuiState)
    (hk : k = Key.up ∨ k = Key.down) (hinv : NavInv s) :
    NavInv (listStep popen k s) ∧
    (listStep popen k s).units = s.units ∧
    s.offset - 1 ≤ (listStep popen k s).offset ∧
    (listStep popen k s).offset ≤ s.offset + 1 := by
  obtain ⟨h0, h1, h2, h3⟩ := hinv
  rcases hk with rfl | rfl <;>
    simp only [listStep, NavInv] <;>
    split_ifs <;> simp_all <;> omega

/-- Any sequence of Up/Down events preserves the navigation invariant. -/
theorem navRun_preserves (popen : Popen) (keys : List Key) (s : TuiState)
    (hkeys : ∀ x ∈ keys, x = Key.up ∨ x = Key.down) (hinv : NavInv s) :
    NavInv (navRun popen keys s) := by
  induction keys generalizing s with
  | nil => simpa [navRun] using hinv
  | cons k ks ih =>
      have h1 := listStep_nav_preserves popen k s (hkeys k (by simp)) hinv
      have h2 := ih (listStep popen k s)
        (fun x hx => hkeys x (by simp [hx])) h1.1
      simpa [navRun] using h2

/-- C4: from any valid navigation state over a non-empty units list, each
Up/Down event keeps `0 ≤ offset ≤ selected_idx ≤ offset + max_lines - 1`,
keeps the selection inside `[0, len(units) - 1]`, moves the scroll offset
by at most one row and never below 0, and the invariant survives any
sequence of Up/Down events. -/
theorem C4_navigation_invariant (popen : Popen) (s : TuiState)
    (hne : s.units ≠ []) (hinv : NavInv s) (k : Key) (keys : List Key)
    (hk : k = Key.up ∨ k = Key.down)
    (hkeys : ∀ x ∈ keys, x = Key.up ∨ x = Key.down) :
    (NavInv (listStep popen k s) ∧
     0 ≤ (listStep popen k s).selected_idx ∧
     (listStep popen k s).selected_idx ≤ (s.units.length : Int) - 1 ∧
     0 ≤ (listStep popen k s).offset ∧
     s.offset - 1 ≤ (listStep popen k s).offset ∧
     (listStep popen k s).offset ≤ s.offset + 1) ∧
    NavInv (navRun popen keys s) := by
  have h1 := listStep_nav_preserves popen k s hk hinv
  obtain ⟨⟨g0, g1, g2, g3⟩, hu, hlo, hhi⟩ := h1
  refine ⟨⟨⟨g0, g1, g2, g3⟩, le_trans g0 g1, ?_, g0, hlo, hhi⟩,
    navRun_preserves popen keys s hkeys hinv⟩
  rw [hu] at g3
  exact g3

/-- Witness for C4 at a concrete state: two units visible in a two-row
window, one Down event, then the sequence Down, Up, Up. -/
theorem C4_navigation_invariant_witness :
    (NavInv (listStep popenC1 Key.down
        { units := [⟨"a.service", "loaded", "active", "running", "A", true⟩,
                    ⟨"b.service", "loaded", "active", "running", "B", false⟩,
                    ⟨"c.service", "loaded", "active", "running", "C", false⟩],
          selected_idx := 1, filter_type := none, offset := 0,
          max_lines := 2 }) ∧
     0 ≤ (listStep popenC1 Key.down
        { units := [⟨"a.service", "loaded", "active", "running", "A", true⟩,
                    ⟨"b.service", "loaded", "active", "running", "B", false⟩,
                    ⟨"c.service", "loaded", "active", "running", "C", false⟩],
          selected_idx := 1, filter_type := none, offset := 0,
          max_lines := 2 }).selected_idx ∧
     (listStep popenC1 Key.down
        { units := [⟨"a.service", "loaded", "active", "running", "A", true⟩,
                    ⟨"b.service", "loaded", "active", "running", "B", false⟩,
                    ⟨"c.service", "loaded", "active", "running", "C", false⟩],
          selected_idx := 1, filter_type := none, offset := 0,
          max_lines := 2 }).selected_idx
       ≤ (([⟨"a.service", "loaded", "active", "running", "A", true⟩,
            ⟨"b.service", "loaded", "active", "running", "B", false⟩,
            ⟨"c.service", "loaded", "active", "running", "C", false⟩] :
              List UnitStatus).length : Int) - 1 ∧
     0 ≤ (listStep popenC1 Key.down
        { units := [⟨"a.service", "loaded", "active", "running", "A", true⟩,
                    ⟨"b.service", "loaded", "active", "running", "B", false⟩,
                    ⟨"c.service", "loaded", "active", "running", "C", false⟩],
          selected_idx := 1, filter_type := none, offset := 0,
          max_lines := 2 }).offset ∧
     (0 : Int) - 1 ≤ (listStep popenC1 Key.down
        { units := [⟨"a.service", "loaded", "active", "running", "A", true⟩,
                    ⟨"b.service", "loaded", "active", "running", "B", false⟩,
                    ⟨"c.service", "loaded", "active", "running", "C", false⟩],
          selected_idx := 1, filter_type := none, offset := 0,
          max_lines := 2 }).offset ∧
     (listStep popenC1 Key.down
        { units := [⟨"a.service", "loaded", "active", "running", "A", true⟩,
                    ⟨"b.service", "loaded", "active", "running", "B", false⟩,
                    ⟨"c.service", "loaded", "active", "running", "C", false⟩],
          selected_idx := 1, filter_type := none, offset := 0,
          max_lines := 2 }).offset ≤ (0 : Int) + 1) ∧
    NavInv (navRun popenC1 [Key.down, Key.up, Key.up]
        { units := [⟨"a.service", "loaded", "active", "running", "A", true⟩,
                    ⟨"b.service", "loaded", "active", "running", "B", false⟩,
                    ⟨"c.service", "loaded", "active", "running", "C", false⟩],
          selected_idx := 1, filter_type := none, offset := 0,
          max_lines := 2 }) := by
  exact C4_navigation_invariant popenC1 _ (by decide) (by decide)
    Key.down [Key.down, Key.up, Key.up] (by decide) (by decide)

/-- C6: completing filter input with entered text `raw` clears the filter
when the stripped text is empty and sets it to the stripped text
otherwise; in both cases the selection and scroll offset are reset to 0
and `units` is replaced by a fresh `list_units` query with the new
filter. -/
theorem C6_filter_input (popen : Popen) (raw : String) (s : TuiState) :
    (pyStrip raw = "" → (handle_filter_input popen raw s).filter_type = none) ∧
    (pyStrip raw ≠ "" →
      (handle_filter_input popen raw s).filter_type = some (pyStrip raw)) ∧
    (handle_filter_input popen raw s).selected_idx = 0 ∧
    (handle_filter_input popen raw s).offset = 0 ∧
    (handle_filter_input popen raw s).units
      = list_units popen (handle_filter_input popen raw s).filter_type := by
  by_cases h : pyStrip raw = "" <;> simp [handle_filter_input, h]

/-- Witness for C6 at concrete inputs: entering `" service "` sets the
filter to `"service"`, entering `"  "` clears it; both reset the
navigation state and reload. -/
theorem C6_filter_input_witness :
    (handle_filter_input popenC1 "  "
        { units := [], selected_idx := 4, filter_type := some "timer",
          offset := 2, max_lines := 5 }).filter_type = none ∧
    (handle_filter_input popenC1 " service "
        { units := [], selected_idx := 4, filter_type := some "timer",
          offset := 2, max_lines := 5 }).filter_type = some "service" ∧
    (handle_filter_input popenC1 " service "
        { units := [], selected_idx := 4, filter_type := some "timer",
          offset := 2, max_lines := 5 }).selected_idx = 0 ∧
    (handle_filter_input popenC1 " service "
        { units := [], selected_idx := 4, filter_type := some "timer",
          offset := 2, max_lines := 5 }).offset = 0 ∧
    (handle_filter_input popenC1 " service "
        { units := [], selected_idx := 4, filter_type := some "timer",
          offset := 2, max_lines := 5 }).units
      = list_units popenC1 ((handle_filter_input popenC1 " service "
        { units := [], selected_idx := 4, filter_type := some "timer",
          offset := 2, max_lines := 5 }).filter_type) := by
  refine ⟨(C6_filter_input popenC1 "  " _).1 (by decide), ?_, ?_, ?_, ?_⟩
  · exact ((C6_filter_input popenC1 " service " _).2.1 (by decide)).trans
      (by decide)
  · exact (C6_filter_input popenC1 " service " _).2.2.1
  · exact (C6_filter_input popenC1 " service " _).2.2.2.1
  · exact (C6_filter_input popenC1 " service " _).2.2.2.2

/-- C7: the refresh key re-runs `list_units` with the current filter,
replacing `units`, and leaves `selected_idx`, `offset`, `filter_type` and
`max_lines` exactly unchanged; no re-clamping happens on this path, so a
valid state can be left with a selection beyond the bounds of a shorter
new list. -/
theorem C7_refresh (popen : Popen) (s : TuiState) :
    ((listStep popen Key.refresh s).units = list_units popen s.filter_type ∧
     (listStep popen Key.refresh s).selected_idx = s.selected_idx ∧
     (listStep popen Key.refresh s).offset = s.offset ∧
     (listStep popen Key.refresh s).filter_type = s.filter_type ∧
     (listStep popen Key.refresh s).max_lines = s.max_lines) ∧
    ∃ (p2 : Popen) (s2 : TuiState), NavInv s2 ∧
      ¬ ((listStep p2 Key.refresh s2).selected_idx
          ≤ (((listStep p2 Key.refresh s2).units).length : Int) - 1) := by
  refine ⟨by simp [listStep], ?_⟩
  refine ⟨fun _ => Except.ok (1, "", ""),
    { units := [⟨"a.service", "loaded", "active", "running", "A", true⟩],
      selected_idx := 0, filter_type := none, offset := 0, max_lines := 1 },
    by decide, ?_⟩
  decide

/-- C9 counterexample: with `units` empty but `selected_idx = 5` (reachable
after a refresh shrank the list), an Up key event still decrements the
selection, so it is not a no-op. -/
theorem C9_counterexample :
    (listStep popenC2 Key.up
        { units := [], selected_idx := 5, filter_type := none,
          offset := 2, max_lines := 3 }).selected_idx = 4 ∧
    ¬ (listStep popenC2 Key.up
        { units := [], selected_idx := 5, filter_type := none,
          offset := 2, max_lines := 3 })
      = { units := [], selected_idx := 5, filter_type := none,
          offset := 2, max_lines := 3 } := by
  decide

/-- C9 (amended): an Up event at `selected_idx = 0`, a Down event at
`selected_idx = len(units) - 1`, a Down event with `units` empty and a
nonnegative selection, and an Up event with `units` empty and
`selected_idx = 0`, each leave the whole state (in particular
`selected_idx` and `offset`) exactly unchanged. -/
theorem C9_boundary_noops (popen : Popen) (s : TuiState) :
    (s.selected_idx = 0 → listStep popen Key.up s = s) ∧
    (s.selected_idx = (s.units.length : Int) - 1 →
        listStep popen Key.down s = s) ∧
    (s.units = [] ∧ 0 ≤ s.selected_idx → listStep popen Key.down s = s) ∧
    (s.units = [] ∧ s.selected_idx = 0 → listStep popen Key.up s = s) := by
  refine ⟨fun h => ?_, fun h => ?_, fun h => ?_, fun h => ?_⟩
  · simp [listStep, h]
  · simp [listStep, h]
  · obtain ⟨h1, h2⟩ := h
    have hc : ¬ (s.selected_idx < (s.units.length : Int) - 1) := by
      rw [h1]
      simp only [List.length_nil, Nat.cast_zero]
      omega
    simp [listStep, hc]
  · simp [listStep, h.2]

/-- Witness for C9 at concrete states: Up at the top, Down at the bottom,
and Up/Down on an empty list with selection 0 are all no-ops. -/
theorem C9_boundary_noops_witness :
    listStep popenC2 Key.up
      { units := [⟨"a.service", "loaded", "active", "running", "A", true⟩],
        selected_idx := 0, filter_type := none, offset := 0, max_lines := 3 }
      = { units := [⟨"a.service", "loaded", "active", "running", "A", true⟩],
          selected_idx := 0, filter_type := none, offset := 0,
          max_lines := 3 } ∧
    listStep popenC2 Key.down
      { units := [⟨"a.service", "loaded", "active", "running", "A", true⟩],
        selected_idx := 0, filter_type := none, offset := 0, max_lines := 3 }
      = { units := [⟨"a.service", "loaded", "active", "running", "A", true⟩],
          selected_idx := 0, filter_type := none, offset := 0,
          max_lines := 3 } ∧
    listStep popenC2 Key.down
      { units := [], selected_idx := 0, filter_type := none, offset := 0,
        max_lines := 3 }
      = { units := [], selected_idx := 0, filter_type := none, offset := 0,
          max_lines := 3 } ∧
    listStep popenC2 Key.up
      { units := [], selected_idx := 0, filter_type := none, offset := 0,
        max_lines := 3 }
      = { units := [], selected_idx := 0, filter_type := none, offset := 0,
          max_lines := 3 } := by
  refine ⟨(C9_boundary_noops popenC2 _).1 (by decide),
    (C9_boundary_noops popenC2 _).2.1 (by decide),
    (C9_boundary_noops popenC2 _).2.2.1 (by decide),
    (C9_boundary_noops popenC2 _).2.2.2 (by decide)⟩

/-- Wrapping is lossless: the segments concatenate back to the line. -/
theorem wrapLine_flatten (width : Nat) (hw : 0 < width) :
    ∀ line : List Char, (wrapLine width line).flatten = line := by
  have H : ∀ (n : Nat) (line : List Char), line.length ≤ n →
      (wrapLine width line).flatten = line := by
    intro n
    induction n with
    | zero =>
        intro line hlen
        rw [wrapLine]
        have : ¬ (0 < width ∧ width < line.length) := by omega
        simp [this]
    | succ n ih =>
        intro line hlen
        rw [wrapLine]
        split
        · rename_i h
          rw [List.flatten_cons,
            ih (line.drop width) (by simp only [List.length_drop]; omega)]
          exact List.take_append_drop width line
        · simp
  exact fun line => H line.length line le_rfl

/-- Every segment produced by wrapping has length at most the width. -/
theorem wrapLine_seg_le (width : Nat) (hw : 0 < width) :
    ∀ line : List Char, ∀ seg ∈ wrapLine width line, seg.length ≤ width := by
  have H : ∀ (n : Nat) (line : List Char), line.length ≤ n →
      ∀ seg ∈ wrapLine width line, seg.length ≤ width := by
    intro n
    induction n with
    | zero =>
        intro line hlen seg hseg
        rw [wrapLine] at hseg
        have : ¬ (0 < width ∧ width < line.length) := by omega
        simp [this] at hseg
        subst hseg
        omega
    | succ n ih =>
        intro line hlen seg hseg
        rw [wrapLine] at hseg
        by_cases h : 0 < width ∧ width < line.length
        · rw [dif_pos h] at hseg
          rcases List.mem_cons.mp hseg with h1 | h1
          · subst h1
            simp
          · exact ih (line.drop width)
              (by simp only [List.length_drop]; omega) seg h1
        · rw [dif_neg h] at hseg
          simp at hseg
          subst hseg
          omega
  exact fun line => H line.length line le_rfl

/-- Every segment except possibly the last has length exactly the width. -/
theorem wrapLine_full_segments (width : Nat) (hw : 0 < width) :
    ∀ line : List Char, ∀ i : Nat, i + 1 < (wrapLine width line).length →
      ((wrapLine width line).getD i []).length = width := by
  have H : ∀ (n : Nat) (line : List Char), line.length ≤ n →
      ∀ i : Nat, i + 1 < (wrapLine width line).length →
        ((wrapLine width line).getD i []).length = width := by
    intro n
    induction n with
    | zero =>
        intro line hlen i hi
        rw [wrapLine] at hi
        have : ¬ (0 < width ∧ width < line.length) := by omega
        rw [dif_neg this] at hi
        simp at hi
    | succ n ih =>
        intro line hlen i hi
        rw [wrapLine] at hi ⊢
        by_cases h : 0 < width ∧ width < line.length
        · rw [dif_pos h] at hi ⊢
          match i with
          | 0 =>
              simp only [List.getD_cons_zero, List.length_take]
              omega
          | j + 1 =>
              simp only [List.getD_cons_succ]
              simp only [List.length_cons] at hi
              exact ih (line.drop width)
                (by simp only [List.length_drop]; omega) j (by omega)
        · rw [dif_neg h] at hi
          simp at hi
  exact fun line => H line.length line le_rfl

/-- C10: for every message and screen width `w > 0`, every line of the
message is wrapped into segments of length at most `w` whose in-order
concatenation is exactly the original line, and every segment except
possibly the last has length exactly `w`. -/
theorem C10_wrap_lossless (width : Nat) (hw : 0 < width) (message : String)
    (line : String) (hl : line ∈ pySplitNl message) :
    (wrapLine width line.toList).flatten = line.toList ∧
    (∀ seg ∈ wrapLine width line.toList, seg.length ≤ width) ∧
    (∀ i : Nat, i + 1 < (wrapLine width line.toList).length →
      ((wrapLine width line.toList).getD i []).length = width) :=
  ⟨wrapLine_flatten width hw line.toList,
   wrapLine_seg_le width hw line.toList,
   wrapLine_full_segments width hw line.toList⟩

/-- Witness for C10 at a concrete message line and width 3. -/
theorem C10_wrap_lossless_witness :
    (wrapLine 3 ("abcdefgh" : String).toList).flatten
        = ("abcdefgh" : String).toList ∧
    (∀ seg ∈ wrapLine 3 ("abcdefgh" : String).toList, seg.length ≤ 3) ∧
    (∀ i : Nat, i + 1 < (wrapLine 3 ("abcdefgh" : String).toList).length →
      ((wrapLine 3 ("abcdefgh" : String).toList).getD i []).length = 3) :=
  C10_wrap_lossless 3 (by decide) "abcdefgh\nxy" "abcdefgh" (by decide)

